import Mathlib

/-!
# Verification of the request admission and error-taxonomy pipeline

Shallow embedding of `src/python/error_handling.py` and the decorator
pipeline of `src/python/server.py` (the chat route stack), together
with proofs about the ResourceManager ledger, the security validator, the
sliding-window rate limiter, and the error-to-response mapping.

Modelling conventions:
* Python exceptions become `Except` values; every raise site of the source
  is a distinct error constructor or message.
* `time.time()` timestamps are modelled as integers; the source only uses
  their ordering and subtraction by the window length.
* The optional `torch` / `psutil` imports of the source are modelled as
  absent (`ImportError` branches taken), matching the pure-Python paths.
* Python `int` counters are modelled as `Int` so that non-negativity is a
  proved property, not a typing artefact.
-/

/-- A parsed JSON request payload: the untyped tree handed to
`validate_input_security` by `request.get_json()`.  Mapping keys produced
by JSON parsing are always strings, so the `isinstance(key, str)` guard of
the source never fires in this model. -/
inductive JsonValue where
  | str (s : String)
  | num (n : Int)
  | boolean (b : Bool)
  | null
  | arr (items : List JsonValue)
  | obj (fields : List (String × JsonValue))

/-- Python `str.lower()` (ASCII behaviour), acting on the character list. -/
def strLower (s : String) : String :=
  String.mk (s.data.map Char.toLower)

/-- Python substring test `pat in hay`. -/
def strContainsSub (hay pat : String) : Bool :=
  hay.data.tails.any (fun t => pat.data.isPrefixOf t)

/-- Python `s.startswith(pre)`. -/
def strStartsWith (s pre : String) : Bool :=
  pre.data.isPrefixOf s.data

/-- Python `len(s)` (number of code points). -/
def strLen (s : String) : Nat :=
  s.data.length

/-- The fixed denylist of `validate_input_security`
(`error_handling.py` lines 140-145), verbatim, in source order. -/
def dangerous_patterns : List String :=
  ["__import__", "eval", "exec", "compile", "open", "file",
   "<script", "</script>", "javascript:", "data:",
   "../", "..\\", "/etc/", "c:\\", "cmd.exe", "powershell",
   "rm -rf", "del /", "format c:", "DROP TABLE"]

/-- The distinct `SecurityError` raise sites of `validate_input_security`.
Each constructor corresponds to exactly one `raise SecurityError(...)`
statement in the source. -/
inductive SecurityViolation where
  | tooDeep
  | dangerousPattern (pattern : String)
  | stringTooLong
  | dangerousKey (key : String)
  | arrayTooLarge
deriving Repr, DecidableEq

/-- The message string carried by each `SecurityError` of the source. -/
def SecurityViolation.message : SecurityViolation → String
  | .tooDeep => "Input structure too deep"
  | .dangerousPattern p => "Dangerous pattern detected: " ++ p
  | .stringTooLong => "Input string too long"
  | .dangerousKey k => "Dangerous key name: " ++ k
  | .arrayTooLarge => "Array too large"

/-- The first denylisted pattern found in the (already lowercased) string,
mirroring the `for pattern in dangerous_patterns` loop. -/
def first_matching_pattern (lower_data : String) : Option String :=
  dangerous_patterns.find? (fun p => strContainsSub lower_data p)

/-- The dangerous-key test of `error_handling.py` line 163:
`key.startswith('__') or key in ['constructor', 'prototype']`. -/
def dangerous_key (key : String) : Bool :=
  strStartsWith key "__" || key == "constructor" || key == "prototype"

mutual

/-- `validate_input_security(data, max_depth, current_depth)`
(`error_handling.py` lines 135-173): depth gate, then a per-shape check.
`Except.error v` models `raise SecurityError(v.message)`. -/
def validate_input_security (data : JsonValue) (max_depth current_depth : Nat) :
    Except SecurityViolation Unit :=
  if max_depth < current_depth then
    .error .tooDeep
  else
    match data with
    | .str s =>
        match first_matching_pattern (strLower s) with
        | some p => .error (.dangerousPattern p)
        | none =>
            if 10000 < strLen s then .error .stringTooLong else .ok ()
    | .obj fields => validate_fields fields max_depth current_depth
    | .arr items =>
        if 1000 < items.length then .error .arrayTooLarge
        else validate_items items max_depth current_depth
    | _ => .ok ()

/-- The `for key, value in data.items()` loop of `validate_input_security`:
key check, then recursive validation of the value, entry by entry. -/
def validate_fields (fields : List (String × JsonValue)) (max_depth current_depth : Nat) :
    Except SecurityViolation Unit :=
  match fields with
  | [] => .ok ()
  | (key, value) :: rest =>
      if dangerous_key key then .error (.dangerousKey key)
      else
        match validate_input_security value max_depth (current_depth + 1) with
        | .error v => .error v
        | .ok _ => validate_fields rest max_depth current_depth

/-- The `for item in data` loop of `validate_input_security`. -/
def validate_items (items : List JsonValue) (max_depth current_depth : Nat) :
    Except SecurityViolation Unit :=
  match items with
  | [] => .ok ()
  | item :: rest =>
      match validate_input_security item max_depth (current_depth + 1) with
      | .error v => .error v
      | .ok _ => validate_items rest max_depth current_depth

end

deriving instance DecidableEq for Except

/-- The Python exception taxonomy caught by `handle_errors`
(`error_handling.py` lines 16-35 plus werkzeug's `BadRequest` and the
generic `Exception` catch-all). -/
inductive Failure where
  | validation (message : String) (field : Option String)
  | security (message : String) (code : String)
  | resource (message : String) (resource_type : Option String)
  | badRequest (description : Option String)
  | unexpected (message : String)
deriving Repr, DecidableEq

/-- The JSON `error` object of a failure response, as built by the
`jsonify({"error": \x7b...\x7d})` calls in `handle_errors` and
`rate_limit`.  `field` and `resource_type` are present only for the
variants that set them. -/
structure ErrorBody where
  type : String
  code : String
  message : String
  field : Option String := none
  resource_type : Option String := none
deriving Repr, DecidableEq

/-- `handle_errors` (`error_handling.py` lines 37-93): maps the outcome of
the wrapped callable to either its return value or an `(error body,
status)` response.  The logging side effects are not modelled. -/
def handle_errors {α : Type} (res : Except Failure α) : Except (ErrorBody × Nat) α :=
  match res with
  | .ok a => .ok a
  | .error (.validation msg fld) =>
      .error ({ type := "validation_error", code := "VALIDATION_FAILED",
                message := msg, field := fld }, 400)
  | .error (.security _ code) =>
      .error ({ type := "security_error", code := code,
                message := "Security violation detected" }, 403)
  | .error (.resource msg rt) =>
      .error ({ type := "resource_error", code := "RESOURCE_UNAVAILABLE",
                message := msg, resource_type := rt }, 503)
  | .error (.badRequest desc) =>
      .error ({ type := "bad_request", code := "INVALID_REQUEST",
                message := match desc with
                           | some d => if d = "" then "Invalid request format" else d
                           | none => "Invalid request format" }, 400)
  | .error (.unexpected _) =>
      .error ({ type := "internal_error", code := "INTERNAL_SERVER_ERROR",
                message := "An unexpected error occurred" }, 500)

/-- `server.py` lines 315-317: an unexpected exception from the
third-party backend call is converted into
`ResourceError(f"Third-party model error: {str(e)}", "third_party_api")`,
embedding the raw exception text in the failure's message. -/
def third_party_error_to_failure (exc_text : String) : Failure :=
  .resource ("Third-party model error: " ++ exc_text) (some "third_party_api")

/-- The mutable ledger of `ResourceManager` (`error_handling.py` lines
253-311).  `gpu_memory_threshold` is only read on the `torch` branch,
which this model takes as absent (`ImportError`), so it is omitted.
Counters are `Int` so that staying non-negative is a proved property. -/
structure ResourceManager where
  active_requests : Int
  max_concurrent_requests : Int
deriving Repr, DecidableEq

/-- `ResourceManager.__init__`: zero active requests, capacity 10. -/
def ResourceManager.init : ResourceManager :=
  { active_requests := 0, max_concurrent_requests := 10 }

/-- `ResourceManager.acquire_resource` (lines 260-276): raise
`ResourceError("Too many concurrent requests", "compute")` at capacity,
else increment the counter.  The GPU-memory check sits on the `torch`
branch, modelled as absent. -/
def ResourceManager.acquire_resource (m : ResourceManager) :
    Except Failure ResourceManager :=
  if m.max_concurrent_requests ≤ m.active_requests then
    .error (.resource "Too many concurrent requests" (some "compute"))
  else
    .ok { m with active_requests := m.active_requests + 1 }

/-- `ResourceManager.release_resource` (lines 278-281): decrement only
when the counter is strictly positive. -/
def ResourceManager.release_resource (m : ResourceManager) : ResourceManager :=
  if 0 < m.active_requests then
    { m with active_requests := m.active_requests - 1 }
  else m

/-- One external call against the shared ledger. -/
inductive ResOp where
  | acquire
  | release

/-- Effect of one call on the ledger: a failed `acquire_resource` raises
before the increment, leaving the counter unchanged. -/
def resStep (m : ResourceManager) : ResOp → ResourceManager
  | .acquire =>
      match m.acquire_resource with
      | .ok m' => m'
      | .error _ => m
  | .release => m.release_resource

/-- The ledger after a sequence of acquire/release calls. -/
def runOps (ops : List ResOp) (m : ResourceManager) : ResourceManager :=
  ops.foldl resStep m

/-- `with_resource_management` (`error_handling.py` lines 316-325):
acquire, run the handler inside `try`, release in `finally`.  The
handler's outcome `res` (normal return, typed failure, or unexpected
exception) is passed through unchanged; a failed acquire propagates with
the ledger untouched. -/
def with_resource_management {α : Type} (res : Except Failure α)
    (m : ResourceManager) : Except Failure α × ResourceManager :=
  match m.acquire_resource with
  | .error e => (.error e, m)
  | .ok m' => (res, m'.release_resource)

/-- The 429 body built inline in `rate_limit` (`error_handling.py`
lines 195-201). -/
def rate_limit_exceeded_body (max_requests : Nat) (window : Int) : ErrorBody :=
  { type := "rate_limit_error", code := "RATE_LIMIT_EXCEEDED",
    message := "Rate limit exceeded: " ++ toString max_requests ++
               " requests per " ++ toString window ++ " seconds" }

/-- One pass of the `rate_limit` wrapper (`error_handling.py` lines
175-210) over a single client's bucket: purge entries at or before
`now - window` (the source keeps `timestamp > cutoff`), then either
return the 429 response without recording the attempt, or append `now`
and let the request proceed (`none`). -/
def rate_limit (max_requests : Nat) (window : Int) (bucket : List Int) (now : Int) :
    Option (ErrorBody × Nat) × List Int :=
  let cutoff := now - window
  let kept := bucket.filter (fun ts => cutoff < ts)
  if max_requests ≤ kept.length then
    (some (rate_limit_exceeded_body max_requests window, 429), kept)
  else
    (none, kept ++ [now])

/-- Result of Flask's `request.get_json()` in this model: the call raised
(`failed`, unparseable body), returned `None` (`empty`), or produced a
payload tree. -/
inductive BodyParse where
  | failed
  | empty
  | parsed (data : JsonValue)

/-- The parts of the Flask `request` object read by
`validate_request_data`. -/
structure HttpRequest where
  is_json : Bool
  content_length : Option Nat
  body : BodyParse

/-- Python `field not in data or data[field] is None` for one required
field.  `ok true` means the field counts as missing, `ok false` that it is
present and non-`None`; `error ()` models an uncaught `TypeError` (`in`
on a number/bool/`None`, or subscripting a list/string with a string key),
which would escape to the generic 500 handler. -/
def required_field_state (data : JsonValue) (fld : String) : Except Unit Bool :=
  match data with
  | .obj fields =>
      match fields.find? (fun kv => kv.fst == fld) with
      | none => .ok true
      | some kv =>
          .ok (match kv.snd with
               | .null => true
               | _ => false)
  | .arr items =>
      if items.any (fun it => match it with
                              | .str s => s == fld
                              | _ => false) then .error ()
      else .ok true
  | .str s => if strContainsSub s fld then .error () else .ok true
  | _ => .error ()

/-- The `missing_fields` accumulation loop of `validate_request_data`
(`error_handling.py` lines 117-121), in declaration order. -/
def missing_fields (data : JsonValue) : List String → Except Unit (List String)
  | [] => .ok []
  | fld :: rest =>
      match required_field_state data fld with
      | .error _ => .error ()
      | .ok b =>
          match missing_fields data rest with
          | .error _ => .error ()
          | .ok ms => .ok (if b then fld :: ms else ms)

/-- Python truthiness of `request.content_length and request.content_length
> max_size` (`error_handling.py` line 105): `None` and `0` are falsy. -/
def size_rejected (req : HttpRequest) (max_size : Nat) : Bool :=
  match req.content_length with
  | some n => decide (0 < n) && decide (max_size < n)
  | none => false

/-- `validate_request_data(required_fields, max_size)` (`error_handling.py`
lines 95-133) wrapped around an inner stage: content-type check, size
check, JSON parse, required-field check, then `validate_input_security`
(with its default `max_depth=10`), and only then the inner stage.  Every
`raise` becomes an error value; the ledger `m` is threaded to the inner
stage untouched on failure. -/
def validate_request_data {α : Type} (required_fields : List String) (max_size : Nat)
    (req : HttpRequest) (inner : ResourceManager → Except Failure α × ResourceManager)
    (m : ResourceManager) : Except Failure α × ResourceManager :=
  if req.is_json = false then
    (.error (.validation "Content-Type must be application/json" none), m)
  else if size_rejected req max_size then
    (.error (.validation ("Request too large. Maximum size: " ++
                          toString max_size ++ " bytes") none), m)
  else
    match req.body with
    | .failed => (.error (.validation "Invalid JSON format" none), m)
    | .empty => (.error (.validation "Request body is required" none), m)
    | .parsed data =>
        match missing_fields data required_fields with
        | .error _ => (.error (.unexpected "TypeError"), m)
        | .ok missing =>
            if missing.isEmpty = false then
              (.error (.validation ("Missing required fields: " ++
                                    String.intercalate ", " missing) none), m)
            else
              match validate_input_security data 10 0 with
              | .error v => (.error (.security v.message "SECURITY_ERROR"), m)
              | .ok _ => inner m

/-- The decorator stack of `/v1/chat/completions` (`server.py` lines
227-233), innermost handler outward: `with_resource_management`, then
`validate_request_data`, then `rate_limit`, then `log_request` (which
re-raises and is outcome-preserving, so it is the identity here), then
`handle_errors`.  The 429 from `rate_limit` is a normal return value and
passes through `handle_errors` unchanged.  Returns the response, the
client's new rate bucket, and the ledger. -/
def chat_pipeline {α : Type} (max_requests : Nat) (window : Int)
    (required_fields : List String) (max_size : Nat)
    (bucket : List Int) (now : Int) (req : HttpRequest) (m : ResourceManager)
    (handler : Except Failure α) :
    Except (ErrorBody × Nat) α × List Int × ResourceManager :=
  match rate_limit max_requests window bucket now with
  | (some resp, kept) => (.error resp, kept, m)
  | (none, recorded) =>
      let (res, m') :=
        validate_request_data required_fields max_size req
          (with_resource_management handler) m
      (handle_errors res, recorded, m')

mutual

/-- Nesting depth of a payload: number of container levels above the
deepest node of the tree.  A leaf (or childless container) is at depth 0;
`validate_input_security` visits the nodes of `data` started at
`current_depth = d` at depths `d` through `d + nestingDepth data`. -/
def nestingDepth : JsonValue → Nat
  | .str _ => 0
  | .num _ => 0
  | .boolean _ => 0
  | .null => 0
  | .arr items => nestingDepthItems items
  | .obj fields => nestingDepthFields fields

/-- Depth contributed by the elements of a list payload. -/
def nestingDepthItems : List JsonValue → Nat
  | [] => 0
  | it :: rest => Nat.max (nestingDepth it + 1) (nestingDepthItems rest)

/-- Depth contributed by the entries of a mapping payload. -/
def nestingDepthFields : List (String × JsonValue) → Nat
  | [] => 0
  | kv :: rest => Nat.max (nestingDepth kv.2 + 1) (nestingDepthFields rest)

end

/-- A payload nested `n` containers deep, as in the repository's
`test_deep_nesting` test. -/
def deepChain : Nat → JsonValue
  | 0 => .null
  | n + 1 => .arr [deepChain n]

/-- The ledger invariant of the spec: the counter stays between 0 and the
configured capacity. -/
def LedgerInv (m : ResourceManager) : Prop :=
  0 ≤ m.active_requests ∧ m.active_requests ≤ m.max_concurrent_requests

/-- Structural induction for the nested inductive `JsonValue`, giving the
member hypotheses for containers. -/
theorem JsonValue.inductionOn (P : JsonValue → Prop)
    (hstr : ∀ s, P (JsonValue.str s))
    (hnum : ∀ n, P (JsonValue.num n))
    (hbool : ∀ b, P (JsonValue.boolean b))
    (hnull : P JsonValue.null)
    (harr : ∀ items, (∀ it, it ∈ items → P it) → P (JsonValue.arr items))
    (hobj : ∀ fields, (∀ kv, kv ∈ fields → P kv.2) → P (JsonValue.obj fields))
    (v : JsonValue) : P v :=
  match v with
  | .str s => hstr s
  | .num n => hnum n
  | .boolean b => hbool b
  | .null => hnull
  | .arr items =>
      harr items (fun it hit =>
        JsonValue.inductionOn P hstr hnum hbool hnull harr hobj it)
  | .obj fields =>
      hobj fields (fun kv hkv =>
        JsonValue.inductionOn P hstr hnum hbool hnull harr hobj kv.2)
termination_by sizeOf v
decreasing_by
  · have h1 := List.sizeOf_lt_of_mem hit
    simp only [JsonValue.arr.sizeOf_spec]
    omega
  · have h1 := List.sizeOf_lt_of_mem hkv
    have h2 : sizeOf kv.2 < sizeOf kv := by
      obtain ⟨a, b⟩ := kv
      simp only [Prod.mk.sizeOf_spec]
      omega
    simp only [JsonValue.obj.sizeOf_spec]
    omega


theorem resStep_acquire (m : ResourceManager) :
    resStep m ResOp.acquire =
      if m.max_concurrent_requests ≤ m.active_requests then m
      else { m with active_requests := m.active_requests + 1 } := by
  by_cases h : m.max_concurrent_requests ≤ m.active_requests
  · simp [resStep, ResourceManager.acquire_resource, h]
  · simp [resStep, ResourceManager.acquire_resource, h]

theorem resStep_inv (m : ResourceManager) (op : ResOp) (h : LedgerInv m) :
    LedgerInv (resStep m op) := by
  obtain ⟨h0, hc⟩ := h
  cases op with
  | acquire =>
      rw [resStep_acquire]
      by_cases hfull : m.max_concurrent_requests ≤ m.active_requests
      · rw [if_pos hfull]
        exact ⟨h0, hc⟩
      · rw [if_neg hfull]
        refine ⟨?_, ?_⟩
        · show 0 ≤ m.active_requests + 1
          omega
        · show m.active_requests + 1 ≤ m.max_concurrent_requests
          omega
  | release =>
      show LedgerInv m.release_resource
      unfold ResourceManager.release_resource
      by_cases hpos : 0 < m.active_requests
      · rw [if_pos hpos]
        refine ⟨?_, ?_⟩
        · show 0 ≤ m.active_requests - 1
          omega
        · show m.active_requests - 1 ≤ m.max_concurrent_requests
          omega
      · rw [if_neg hpos]
        exact ⟨h0, hc⟩

theorem runOps_inv (ops : List ResOp) (m : ResourceManager) (h : LedgerInv m) :
    LedgerInv (runOps ops m) := by
  induction ops generalizing m with
  | nil => exact h
  | cons op rest ih => exact ih (resStep m op) (resStep_inv m op h)

theorem runOps_init_inv (ops : List ResOp) : LedgerInv (runOps ops ResourceManager.init) :=
  runOps_inv ops ResourceManager.init ⟨le_refl 0, by decide⟩

/-- The ledger reached by filling the initial manager to capacity. -/
theorem runOps_ten_acquires :
    runOps (List.replicate 10 ResOp.acquire) ResourceManager.init =
      { active_requests := 10, max_concurrent_requests := 10 } := by
  decide

/-- C1: starting from the initial ledger, any sequence of acquire/release
calls keeps `0 ≤ active_requests ≤ max_concurrent_requests`;
`acquire_resource` raises `ResourceError(..., "compute")` exactly when the
counter is at capacity (leaving it unchanged) and otherwise increments it;
after filling the ledger the next acquire fails, and after one release
from the full ledger the next acquire succeeds. -/
theorem resource_ledger_invariant (ops : List ResOp) :
    0 ≤ (runOps ops ResourceManager.init).active_requests ∧
    (runOps ops ResourceManager.init).active_requests ≤
      (runOps ops ResourceManager.init).max_concurrent_requests ∧
    (∀ m : ResourceManager, m.acquire_resource =
        if m.max_concurrent_requests ≤ m.active_requests then
          Except.error (Failure.resource "Too many concurrent requests" (some "compute"))
        else Except.ok { m with active_requests := m.active_requests + 1 }) ∧
    (runOps (List.replicate 10 ResOp.acquire) ResourceManager.init).acquire_resource =
      Except.error (Failure.resource "Too many concurrent requests" (some "compute")) ∧
    (runOps (List.replicate 10 ResOp.acquire)
        ResourceManager.init).release_resource.acquire_resource =
      Except.ok { active_requests := 10, max_concurrent_requests := 10 } := by
  refine ⟨(runOps_init_inv ops).1, (runOps_init_inv ops).2, fun m => rfl, ?_, ?_⟩
  · rw [runOps_ten_acquires]
    decide
  · rw [runOps_ten_acquires]
    decide

/-- C10: `release_resource` decrements only when the counter is strictly
positive, so releasing an idle ledger leaves it at 0 and no sequence of
calls — even with more releases than acquires — drives the counter
negative. -/
theorem release_resource_never_negative (ops : List ResOp) :
    (∀ m : ResourceManager, m.release_resource =
        if 0 < m.active_requests then { m with active_requests := m.active_requests - 1 }
        else m) ∧
    ResourceManager.release_resource
        { active_requests := 0, max_concurrent_requests := 10 } =
      { active_requests := 0, max_concurrent_requests := 10 } ∧
    0 ≤ (runOps ops ResourceManager.init).active_requests :=
  ⟨fun _ => rfl, by decide, (runOps_init_inv ops).1⟩

theorem resource_scope_restores {α : Type} (m : ResourceManager)
    (res : Except Failure α) (h0 : 0 ≤ m.active_requests)
    (hcap : m.active_requests < m.max_concurrent_requests) :
    with_resource_management res m = (res, m) := by
  obtain ⟨a, c⟩ := m
  have h0' : 0 ≤ a := h0
  have hcap' : a < c := hcap
  have hacq : ResourceManager.acquire_resource ⟨a, c⟩ = Except.ok ⟨a + 1, c⟩ := by
    simp only [ResourceManager.acquire_resource]
    rw [if_neg (by omega)]
  have hrel : ResourceManager.release_resource ⟨a + 1, c⟩ = ⟨a, c⟩ := by
    simp only [ResourceManager.release_resource]
    rw [if_pos (by omega)]
    have ha : a + 1 - 1 = a := by omega
    rw [ha]
  unfold with_resource_management
  rw [hacq]
  show (res, ResourceManager.release_resource ⟨a + 1, c⟩) =
    (res, (⟨a, c⟩ : ResourceManager))
  rw [hrel]

/-- C2: when `acquire_resource` succeeds, the `try/finally` of
`with_resource_management` runs `release_resource` exactly once on every
exit path — normal return, typed failure, or unexpected exception alike
(`res` ranges over all outcomes) — so the wrapped call returns the
handler's outcome with `active_requests` restored to its value before the
call. -/
theorem with_resource_management_balanced {α : Type} (m : ResourceManager)
    (res : Except Failure α) (h0 : 0 ≤ m.active_requests)
    (hcap : m.active_requests < m.max_concurrent_requests) :
    with_resource_management res m = (res, m) :=
  resource_scope_restores m res h0 hcap

/-- Witness for C2: the guarantee at the initial ledger, for a normal
return and for an unexpected failure. -/
theorem with_resource_management_balanced_witness :
    with_resource_management (Except.ok ()) ResourceManager.init =
      (Except.ok (), ResourceManager.init) ∧
    with_resource_management (α := Unit)
        (Except.error (Failure.unexpected "boom")) ResourceManager.init =
      (Except.error (Failure.unexpected "boom"), ResourceManager.init) :=
  ⟨with_resource_management_balanced ResourceManager.init (Except.ok ())
      (by decide) (by decide),
   with_resource_management_balanced ResourceManager.init
      (Except.error (Failure.unexpected "boom")) (by decide) (by decide)⟩

/-- C7 (amended): every failure caught by `handle_errors` yields a JSON
error body carrying `type`, `code` and `message`; a SecurityError maps to
403 with the constant message "Security violation detected" whatever the
failure's own message was (the matched pattern is never echoed); an
unexpected exception maps to 500 with a constant generic message.
However, ResourceError responses (503, a 5xx status) carry the failure's
own message verbatim — which for third-party backend failures embeds the
raw text of the underlying exception. -/
theorem handle_errors_response (e : Failure) (msg code exc : String) :
    (∃ body status, handle_errors (α := Unit) (.error e) = .error (body, status)) ∧
    handle_errors (α := Unit) (.error (.security msg code)) =
      .error ({ type := "security_error", code := code,
                message := "Security violation detected" }, 403) ∧
    handle_errors (α := Unit) (.error (.unexpected msg)) =
      .error ({ type := "internal_error", code := "INTERNAL_SERVER_ERROR",
                message := "An unexpected error occurred" }, 500) ∧
    handle_errors (α := Unit) (.error (third_party_error_to_failure exc)) =
      .error ({ type := "resource_error", code := "RESOURCE_UNAVAILABLE",
                message := "Third-party model error: " ++ exc,
                resource_type := some "third_party_api" }, 503) := by
  refine ⟨?_, rfl, rfl, rfl⟩
  cases e <;> exact ⟨_, _, rfl⟩

/-- C7 counterexample: the ResourceError raised at `server.py` lines
315-317 for third-party backend failures produces a 503 — a 5xx — whose
response body message contains the raw exception text, so internal
details do reach a 5xx response body, contrary to the claim. -/
theorem handle_errors_503_includes_exception_text :
    ∃ body : ErrorBody,
      handle_errors (α := Unit)
          (Except.error (third_party_error_to_failure
            "ZeroDivisionError: division by zero")) =
        Except.error (body, 503) ∧
      strContainsSub body.message "ZeroDivisionError: division by zero" = true :=
  ⟨_, rfl, by decide⟩

/-- C3 (evaluation at the failing input): "DROP TABLE" is in the denylist
and occurs — under case-insensitive matching — in "DROP TABLE users;",
yet `validate_input_security` accepts that string: the input is
lowercased while the pattern is kept upper-case, so this pattern can
never match.  The repository's own test `test_dangerous_strings`
(`test_server.py` line 60) expects a SecurityError here. -/
theorem drop_table_pattern_never_matches :
    "DROP TABLE" ∈ dangerous_patterns ∧
    strContainsSub (strLower "DROP TABLE users;") (strLower "DROP TABLE") = true ∧
    validate_input_security (JsonValue.str "DROP TABLE users;") 10 0 = .ok () :=
  ⟨by decide, by decide, rfl⟩

/-- C6: on each request the rate limiter first purges the client's bucket
down to the timestamps newer than `now - window`; if the purged bucket
already holds `max_requests` entries, the request is rejected with the
429 rate-limit response and the attempt is not recorded; otherwise `now`
is appended and the request proceeds.  Hence a client whose
`max_requests` recorded calls all lie inside the window is rejected on
the next call, and once the window has elapsed past every recorded call a
new call succeeds. -/
theorem rate_limit_sliding_window (max_requests : Nat) (window : Int)
    (bucket : List Int) (now now2 : Int) :
    (max_requests ≤ (bucket.filter (fun ts => now - window < ts)).length →
       rate_limit max_requests window bucket now =
         (some (rate_limit_exceeded_body max_requests window, 429),
          bucket.filter (fun ts => now - window < ts))) ∧
    ((bucket.filter (fun ts => now - window < ts)).length < max_requests →
       rate_limit max_requests window bucket now =
         (none, bucket.filter (fun ts => now - window < ts) ++ [now])) ∧
    ((∀ ts ∈ bucket, now - window < ts) → bucket.length = max_requests →
       (rate_limit max_requests window bucket now).1 =
         some (rate_limit_exceeded_body max_requests window, 429)) ∧
    ((∀ ts ∈ bucket, ts ≤ now2 - window) → 0 < max_requests →
       (rate_limit max_requests window bucket now2).1 = none) := by
  refine ⟨?_, ?_, ?_, ?_⟩
  · intro h
    simp only [rate_limit]
    rw [if_pos h]
  · intro h
    simp only [rate_limit]
    rw [if_neg (by omega)]
  · intro hall hlen
    have hfil : bucket.filter (fun ts => now - window < ts) = bucket :=
      List.filter_eq_self.mpr (fun a ha => decide_eq_true (hall a ha))
    simp only [rate_limit, hfil]
    rw [if_pos (le_of_eq hlen.symm)]
  · intro hall hpos
    have hfil : bucket.filter (fun ts => now2 - window < ts) = [] :=
      List.filter_eq_nil_iff.mpr
        (fun a ha => by simpa using not_lt.mpr (hall a ha))
    simp only [rate_limit, hfil]
    rw [if_neg (by simp only [List.length_nil]; omega)]

/-- Witness for C6 at concrete buckets: a full bucket inside the window
is rejected without recording; an empty bucket proceeds and records; a
bucket whose entries all lie beyond the window admits a later call. -/
theorem rate_limit_sliding_window_witness :
    rate_limit 2 10 [1, 2] 3 =
      (some (rate_limit_exceeded_body 2 10, 429),
       [1, 2].filter (fun ts => (3 : Int) - 10 < ts)) ∧
    rate_limit 2 10 [] 3 =
      (none, ([] : List Int).filter (fun ts => (3 : Int) - 10 < ts) ++ [3]) ∧
    (rate_limit 2 10 [1, 2] 3).1 = some (rate_limit_exceeded_body 2 10, 429) ∧
    (rate_limit 2 10 [1, 2] 20).1 = none :=
  ⟨(rate_limit_sliding_window 2 10 [1, 2] 3 3).1 (by decide),
   (rate_limit_sliding_window 2 10 [] 3 3).2.1 (by decide),
   (rate_limit_sliding_window 2 10 [1, 2] 3 3).2.2.1 (by decide) (by decide),
   (rate_limit_sliding_window 2 10 [1, 2] 3 20).2.2.2 (by decide) (by decide)⟩

theorem validate_tooDeep_of_lt (data : JsonValue) (maxd d : Nat) (h : maxd < d) :
    validate_input_security data maxd d = .error .tooDeep := by
  unfold validate_input_security
  rw [if_pos h]

theorem nestingDepthItems_lt (items : List JsonValue) (k : Nat)
    (h : k < nestingDepthItems items) :
    ∃ it ∈ items, k < nestingDepth it + 1 := by
  induction items with
  | nil => simp [nestingDepthItems] at h
  | cons a rest ih =>
      simp only [nestingDepthItems] at h
      rcases lt_max_iff.mp h with h1 | h2
      · exact ⟨a, List.mem_cons_self a rest, h1⟩
      · obtain ⟨x, hx, hk⟩ := ih h2
        exact ⟨x, List.mem_cons_of_mem a hx, hk⟩

theorem nestingDepthFields_lt (fields : List (String × JsonValue)) (k : Nat)
    (h : k < nestingDepthFields fields) :
    ∃ kv ∈ fields, k < nestingDepth kv.2 + 1 := by
  induction fields with
  | nil => simp [nestingDepthFields] at h
  | cons a rest ih =>
      simp only [nestingDepthFields] at h
      rcases lt_max_iff.mp h with h1 | h2
      · exact ⟨a, List.mem_cons_self a rest, h1⟩
      · obtain ⟨x, hx, hk⟩ := ih h2
        exact ⟨x, List.mem_cons_of_mem a hx, hk⟩

theorem nestingDepthItems_le_of_mem (items : List JsonValue) (it : JsonValue)
    (hit : it ∈ items) : nestingDepth it + 1 ≤ nestingDepthItems items := by
  induction items with
  | nil => cases hit
  | cons a rest ih =>
      rcases List.mem_cons.mp hit with rfl | h
      · exact le_max_left _ _
      · exact le_trans (ih h) (le_max_right _ _)

theorem nestingDepthFields_le_of_mem (fields : List (String × JsonValue))
    (kv : String × JsonValue) (hkv : kv ∈ fields) :
    nestingDepth kv.2 + 1 ≤ nestingDepthFields fields := by
  induction fields with
  | nil => cases hkv
  | cons a rest ih =>
      rcases List.mem_cons.mp hkv with rfl | h
      · exact le_max_left _ _
      · exact le_trans (ih h) (le_max_right _ _)

theorem validate_items_error_of_mem (items : List JsonValue) (maxd d : Nat)
    (h : ∃ it ∈ items, ∃ v, validate_input_security it maxd (d + 1) = .error v) :
    ∃ v, validate_items items maxd d = .error v := by
  induction items with
  | nil =>
      obtain ⟨it, hit, _⟩ := h
      cases hit
  | cons a rest ih =>
      simp only [validate_items]
      cases hres : validate_input_security a maxd (d + 1) with
      | error v => exact ⟨v, rfl⟩
      | ok u =>
          obtain ⟨it, hit, v, hvv⟩ := h
          rcases List.mem_cons.mp hit with rfl | hmem
          · rw [hres] at hvv
            cases hvv
          · exact ih ⟨it, hmem, v, hvv⟩

theorem validate_fields_error_of_mem (fields : List (String × JsonValue)) (maxd d : Nat)
    (h : ∃ kv ∈ fields, ∃ v, validate_input_security kv.2 maxd (d + 1) = .error v) :
    ∃ v, validate_fields fields maxd d = .error v := by
  induction fields with
  | nil =>
      obtain ⟨kv, hkv, _⟩ := h
      cases hkv
  | cons a rest ih =>
      obtain ⟨key, value⟩ := a
      simp only [validate_fields]
      by_cases hkey : dangerous_key key
      · rw [if_pos hkey]
        exact ⟨.dangerousKey key, rfl⟩
      · rw [if_neg hkey]
        cases hres : validate_input_security value maxd (d + 1) with
        | error v => exact ⟨v, rfl⟩
        | ok u =>
            obtain ⟨kv, hkv, v, hvv⟩ := h
            rcases List.mem_cons.mp hkv with rfl | hmem
            · rw [hres] at hvv
              cases hvv
            · exact ih ⟨kv, hmem, v, hvv⟩

theorem validate_deep_error (data : JsonValue) :
    ∀ maxd d : Nat, maxd < d + nestingDepth data →
      ∃ v, validate_input_security data maxd d = .error v := by
  induction data using JsonValue.inductionOn with
  | hstr s =>
      intro maxd d h
      exact ⟨.tooDeep, validate_tooDeep_of_lt _ maxd d (by simpa [nestingDepth] using h)⟩
  | hnum n =>
      intro maxd d h
      exact ⟨.tooDeep, validate_tooDeep_of_lt _ maxd d (by simpa [nestingDepth] using h)⟩
  | hbool b =>
      intro maxd d h
      exact ⟨.tooDeep, validate_tooDeep_of_lt _ maxd d (by simpa [nestingDepth] using h)⟩
  | hnull =>
      intro maxd d h
      exact ⟨.tooDeep, validate_tooDeep_of_lt _ maxd d (by simpa [nestingDepth] using h)⟩
  | harr items ih =>
      intro maxd d h
      by_cases hdeep : maxd < d
      · exact ⟨.tooDeep, validate_tooDeep_of_lt _ maxd d hdeep⟩
      · have hnd : maxd - d < nestingDepthItems items := by
          simp only [nestingDepth] at h
          omega
        obtain ⟨it, hit, hk⟩ := nestingDepthItems_lt items (maxd - d) hnd
        have hrec : ∃ v, validate_input_security it maxd (d + 1) = .error v :=
          ih it hit maxd (d + 1) (by omega)
        unfold validate_input_security
        rw [if_neg (by omega)]
        show ∃ v, (if 1000 < items.length then Except.error SecurityViolation.arrayTooLarge
                   else validate_items items maxd d) = Except.error v
        by_cases hlen : 1000 < items.length
        · rw [if_pos hlen]
          exact ⟨.arrayTooLarge, rfl⟩
        · rw [if_neg hlen]
          exact validate_items_error_of_mem items maxd d ⟨it, hit, hrec⟩
  | hobj fields ih =>
      intro maxd d h
      by_cases hdeep : maxd < d
      · exact ⟨.tooDeep, validate_tooDeep_of_lt _ maxd d hdeep⟩
      · have hnd : maxd - d < nestingDepthFields fields := by
          simp only [nestingDepth] at h
          omega
        obtain ⟨kv, hkv, hk⟩ := nestingDepthFields_lt fields (maxd - d) hnd
        have hrec : ∃ v, validate_input_security kv.2 maxd (d + 1) = .error v :=
          ih kv hkv maxd (d + 1) (by omega)
        unfold validate_input_security
        rw [if_neg (by omega)]
        exact validate_fields_error_of_mem fields maxd d ⟨kv, hkv, hrec⟩

theorem validate_items_no_tooDeep (maxd : Nat) (items : List JsonValue) :
    ∀ d : Nat,
      (∀ it ∈ items, ∀ (d' : Nat) (v : SecurityViolation),
         d' + nestingDepth it ≤ maxd →
         validate_input_security it maxd d' = .error v → v ≠ .tooDeep) →
      (∀ it ∈ items, d + 1 + nestingDepth it ≤ maxd) →
      ∀ v, validate_items items maxd d = .error v → v ≠ .tooDeep := by
  induction items with
  | nil =>
      intro d ih hd v hv
      simp [validate_items] at hv
  | cons a rest ihl =>
      intro d ih hd v hv
      simp only [validate_items] at hv
      split at hv
      · next v' heq =>
          injection hv with hv'
          subst hv'
          exact ih a (List.mem_cons_self a rest) (d + 1) v'
            (hd a (List.mem_cons_self a rest)) heq
      · next u heq =>
          exact ihl d (fun it h => ih it (List.mem_cons_of_mem a h))
            (fun it h => hd it (List.mem_cons_of_mem a h)) v hv

theorem validate_fields_no_tooDeep (maxd : Nat) (fields : List (String × JsonValue)) :
    ∀ d : Nat,
      (∀ kv ∈ fields, ∀ (d' : Nat) (v : SecurityViolation),
         d' + nestingDepth kv.2 ≤ maxd →
         validate_input_security kv.2 maxd d' = .error v → v ≠ .tooDeep) →
      (∀ kv ∈ fields, d + 1 + nestingDepth kv.2 ≤ maxd) →
      ∀ v, validate_fields fields maxd d = .error v → v ≠ .tooDeep := by
  induction fields with
  | nil =>
      intro d ih hd v hv
      simp [validate_fields] at hv
  | cons a rest ihl =>
      obtain ⟨key, value⟩ := a
      intro d ih hd v hv
      simp only [validate_fields] at hv
      split at hv
      · injection hv with hv'
        subst hv'
        intro hcon
        cases hcon
      · split at hv
        · next v' heq =>
            injection hv with hv'
            subst hv'
            exact ih (key, value) (List.mem_cons_self _ rest) (d + 1) v'
              (hd (key, value) (List.mem_cons_self _ rest)) heq
        · next u heq =>
            exact ihl d (fun kv h => ih kv (List.mem_cons_of_mem _ h))
              (fun kv h => hd kv (List.mem_cons_of_mem _ h)) v hv

theorem validate_shallow_no_tooDeep (data : JsonValue) :
    ∀ (maxd d : Nat) (v : SecurityViolation), d + nestingDepth data ≤ maxd →
      validate_input_security data maxd d = .error v → v ≠ .tooDeep := by
  induction data using JsonValue.inductionOn with
  | hstr s =>
      intro maxd d v h hv
      unfold validate_input_security at hv
      rw [if_neg (by simp only [nestingDepth] at h; omega)] at hv
      have hv' : (match first_matching_pattern (strLower s) with
                  | some p => Except.error (SecurityViolation.dangerousPattern p)
                  | none => if 10000 < strLen s then Except.error SecurityViolation.stringTooLong
                            else Except.ok ()) = Except.error v := hv
      split at hv'
      · injection hv' with hv''
        subst hv''
        intro hcon
        cases hcon
      · split at hv'
        · injection hv' with hv''
          subst hv''
          intro hcon
          cases hcon
        · cases hv'
  | hnum n =>
      intro maxd d v h hv
      unfold validate_input_security at hv
      rw [if_neg (by simp only [nestingDepth] at h; omega)] at hv
      cases hv
  | hbool b =>
      intro maxd d v h hv
      unfold validate_input_security at hv
      rw [if_neg (by simp only [nestingDepth] at h; omega)] at hv
      cases hv
  | hnull =>
      intro maxd d v h hv
      unfold validate_input_security at hv
      rw [if_neg (by simp only [nestingDepth] at h; omega)] at hv
      cases hv
  | harr items ih =>
      intro maxd d v h hv
      unfold validate_input_security at hv
      rw [if_neg (by simp only [nestingDepth] at h; omega)] at hv
      have hv' : (if 1000 < items.length then Except.error SecurityViolation.arrayTooLarge
                  else validate_items items maxd d) = Except.error v := hv
      split at hv'
      · injection hv' with hv''
        subst hv''
        intro hcon
        cases hcon
      · refine validate_items_no_tooDeep maxd items d
          (fun it hit d' v' hle => ih it hit maxd d' v' hle) ?_ v hv'
        intro it hit
        have := nestingDepthItems_le_of_mem items it hit
        simp only [nestingDepth] at h
        omega
  | hobj fields ih =>
      intro maxd d v h hv
      unfold validate_input_security at hv
      rw [if_neg (by simp only [nestingDepth] at h; omega)] at hv
      have hv' : validate_fields fields maxd d = Except.error v := hv
      refine validate_fields_no_tooDeep maxd fields d
        (fun kv hkv d' v' hle => ih kv hkv maxd d' v' hle) ?_ v hv'
      intro kv hkv
      have := nestingDepthFields_le_of_mem fields kv hkv
      simp only [nestingDepth] at h
      omega

/-- C4: a payload nested deeper than `max_depth` containers is always
rejected with a SecurityError, whatever the content stored at each level;
and on a payload nested no deeper than `max_depth`, whatever error the
validator raises, it is never the depth violation — the depth check never
fires. -/
theorem depth_limit_gate (data : JsonValue) (max_depth : Nat) :
    (max_depth < nestingDepth data →
       ∃ v, validate_input_security data max_depth 0 = .error v) ∧
    (nestingDepth data ≤ max_depth →
       ∀ v, validate_input_security data max_depth 0 = .error v →
         v ≠ SecurityViolation.tooDeep) := by
  constructor
  · intro h
    exact validate_deep_error data max_depth 0 (by omega)
  · intro h v hv
    exact validate_shallow_no_tooDeep data max_depth 0 v (by omega) hv

/-- Witness for C4: an 11-deep chain of arrays is rejected at the default
depth limit 10, while on a shallow unsafe payload the violation raised is
the content violation, not the depth one. -/
theorem depth_limit_gate_witness :
    (∃ v, validate_input_security (deepChain 11) 10 0 = .error v) ∧
    SecurityViolation.dangerousPattern "<script" ≠ SecurityViolation.tooDeep :=
  ⟨(depth_limit_gate (deepChain 11) 10).1 (by decide),
   (depth_limit_gate (JsonValue.obj [("k", JsonValue.str "<script>")]) 10).2
     (by decide) (SecurityViolation.dangerousPattern "<script") (by decide)⟩

theorem validate_fields_dangerous_key (max_depth d : Nat) (k : String)
    (hk : dangerous_key k = true) :
    ∀ fields : List (String × JsonValue), k ∈ fields.map Prod.fst →
      (∀ kv ∈ fields, dangerous_key kv.1 = false →
         validate_input_security kv.2 max_depth (d + 1) = .ok ()) →
      ∃ k', dangerous_key k' = true ∧
        validate_fields fields max_depth d = .error (.dangerousKey k') := by
  intro fields
  induction fields with
  | nil =>
      intro hmem _
      simp at hmem
  | cons a rest ih =>
      obtain ⟨key, value⟩ := a
      intro hmem hsib
      by_cases hkey : dangerous_key key = true
      · refine ⟨key, hkey, ?_⟩
        simp only [validate_fields]
        rw [if_pos hkey]
      · have hkey' : dangerous_key key = false := by
          simpa using hkey
        have hval : validate_input_security value max_depth (d + 1) = .ok () :=
          hsib (key, value) (List.mem_cons_self _ rest) hkey'
        have hmem' : k ∈ rest.map Prod.fst := by
          simp only [List.map_cons] at hmem
          rcases List.mem_cons.mp hmem with rfl | h
          · rw [hk] at hkey'
            cases hkey'
          · exact h
        obtain ⟨k', hk', hrec⟩ :=
          ih hmem' (fun kv h hsafe => hsib kv (List.mem_cons_of_mem _ h) hsafe)
        refine ⟨k', hk', ?_⟩
        simp only [validate_fields]
        rw [if_neg hkey, hval]
        exact hrec

/-- C5: a mapping holding a key that starts with a double underscore or
equals "constructor" or "prototype" is rejected with a SecurityError even
when every sibling entry is safe — the error raised is the dangerous-key
violation for such a key. -/
theorem dangerous_key_rejected (fields : List (String × JsonValue)) (k : String)
    (max_depth d : Nat) (hd : d ≤ max_depth)
    (hk : dangerous_key k = true) (hmem : k ∈ fields.map Prod.fst)
    (hsib : ∀ kv ∈ fields, dangerous_key kv.1 = false →
              validate_input_security kv.2 max_depth (d + 1) = .ok ()) :
    ∃ k', dangerous_key k' = true ∧
      validate_input_security (JsonValue.obj fields) max_depth d =
        .error (.dangerousKey k') := by
  have h := validate_fields_dangerous_key max_depth d k hk fields hmem hsib
  unfold validate_input_security
  rw [if_neg (by omega)]
  exact h

/-- Witness for C5: a payload whose mapping carries the dangerous key
"__proto__" next to a perfectly safe sibling entry is rejected. -/
theorem dangerous_key_rejected_witness :
    ∃ k', dangerous_key k' = true ∧
      validate_input_security
          (JsonValue.obj [("a", JsonValue.str "hello"), ("__proto__", JsonValue.str "x")])
          10 0 =
        .error (.dangerousKey k') :=
  dangerous_key_rejected
    [("a", JsonValue.str "hello"), ("__proto__", JsonValue.str "x")]
    "__proto__" 10 0 (by decide) (by decide) (by decide) (by decide)

/-- C8 counterexample: at a concrete request with the wrong content type,
the pipeline answers 400 but the body's `error.type` is
"validation_error", not "bad_request" — `validate_request_data` raises
`ValidationError` for parse failures, and the `bad_request` type is only
produced for werkzeug `BadRequest` exceptions, which these paths never
raise. -/
theorem malformed_request_not_bad_request :
    (handle_errors (validate_request_data (α := Unit) ["messages"] 1048576
        { is_json := false, content_length := some 10, body := BodyParse.failed }
        (with_resource_management (Except.ok ())) ResourceManager.init).1) =
      .error ({ type := "validation_error", code := "VALIDATION_FAILED",
                message := "Content-Type must be application/json",
                field := none }, 400) ∧
    "validation_error" ≠ "bad_request" :=
  ⟨rfl, by decide⟩

/-- C8 (amended): a request that fails to parse as the expected
structured shape before field validation — wrong content type,
unparseable JSON, or empty body — receives status 400 with `error.type`
equal to "validation_error". -/
theorem malformed_request_validation_error {α : Type} (required_fields : List String)
    (max_size : Nat) (req : HttpRequest)
    (inner : ResourceManager → Except Failure α × ResourceManager) (m : ResourceManager)
    (h : req.is_json = false ∨ req.body = BodyParse.failed ∨ req.body = BodyParse.empty) :
    ∃ body : ErrorBody,
      handle_errors (validate_request_data required_fields max_size req inner m).1 =
        .error (body, 400) ∧ body.type = "validation_error" := by
  unfold validate_request_data
  by_cases hj : req.is_json = false
  · rw [if_pos hj]
    exact ⟨_, rfl, rfl⟩
  · rw [if_neg hj]
    by_cases hs : size_rejected req max_size = true
    · rw [if_pos hs]
      exact ⟨_, rfl, rfl⟩
    · rw [if_neg hs]
      rcases h with hj' | hb | hb
      · exact absurd hj' hj
      · rw [hb]
        exact ⟨_, rfl, rfl⟩
      · rw [hb]
        exact ⟨_, rfl, rfl⟩

/-- Witness for C8 (amended) at a concrete empty-body request. -/
theorem malformed_request_validation_error_witness :
    ∃ body : ErrorBody,
      handle_errors (validate_request_data (α := Unit) ["messages"] 1048576
          { is_json := true, content_length := none, body := BodyParse.empty }
          (with_resource_management (Except.ok ())) ResourceManager.init).1 =
        .error (body, 400) ∧ body.type = "validation_error" :=
  malformed_request_validation_error ["messages"] 1048576
    { is_json := true, content_length := none, body := BodyParse.empty }
    (with_resource_management (Except.ok ())) ResourceManager.init
    (Or.inr (Or.inr rfl))

theorem rate_limit_rejects (max_requests : Nat) (window : Int) (bucket : List Int)
    (now : Int)
    (h : max_requests ≤ (bucket.filter (fun ts => now - window < ts)).length) :
    rate_limit max_requests window bucket now =
      (some (rate_limit_exceeded_body max_requests window, 429),
       bucket.filter (fun ts => now - window < ts)) := by
  simp only [rate_limit]
  rw [if_pos h]

theorem rate_limit_allows (max_requests : Nat) (window : Int) (bucket : List Int)
    (now : Int)
    (h : (bucket.filter (fun ts => now - window < ts)).length < max_requests) :
    rate_limit max_requests window bucket now =
      (none, bucket.filter (fun ts => now - window < ts) ++ [now]) := by
  simp only [rate_limit]
  rw [if_neg (by omega)]

theorem validate_request_data_parsed {α : Type} (required_fields : List String)
    (max_size : Nat) (req : HttpRequest)
    (inner : ResourceManager → Except Failure α × ResourceManager) (m : ResourceManager)
    (data : JsonValue)
    (hj : req.is_json = true) (hsz : size_rejected req max_size = false)
    (hb : req.body = BodyParse.parsed data) :
    validate_request_data required_fields max_size req inner m =
      match missing_fields data required_fields with
      | .error _ => (.error (.unexpected "TypeError"), m)
      | .ok missing =>
          if missing.isEmpty = false then
            (.error (.validation ("Missing required fields: " ++
                                  String.intercalate ", " missing) none), m)
          else
            match validate_input_security data 10 0 with
            | .error v => (.error (.security v.message "SECURITY_ERROR"), m)
            | .ok _ => inner m := by
  unfold validate_request_data
  rw [if_neg (by simp [hj]), if_neg (by simp [hsz]), hb]

/-- C9: the chat pipeline applies its stages in the fixed order
rate-limit check, schema/required-field check, security validation,
resource admission, handler — and each stage short-circuits all later
ones: a rate-limited client receives the 429 regardless of the body; a
payload missing a required field receives the 400 validation failure even
when it also contains denylisted content (the security failure never
surfaces); a complete payload with denylisted content receives the 403
security response with the ledger untouched; and a fully valid request
runs the handler inside an admission/release pair that restores the
ledger, with the call recorded in the rate bucket. -/
theorem chat_pipeline_stage_order {α : Type} (max_requests : Nat) (window : Int)
    (required_fields : List String) (max_size : Nat) (bucket : List Int) (now : Int)
    (req : HttpRequest) (m : ResourceManager) (handler : Except Failure α)
    (data : JsonValue) :
    (max_requests ≤ (bucket.filter (fun ts => now - window < ts)).length →
       (chat_pipeline max_requests window required_fields max_size bucket now
          req m handler).1 =
         .error (rate_limit_exceeded_body max_requests window, 429)) ∧
    ((bucket.filter (fun ts => now - window < ts)).length < max_requests →
     req.is_json = true → size_rejected req max_size = false →
     req.body = BodyParse.parsed data →
     ∀ missing, missing_fields data required_fields = .ok missing → missing ≠ [] →
     (∃ v, validate_input_security data 10 0 = .error v) →
       chat_pipeline max_requests window required_fields max_size bucket now
           req m handler =
         (.error ({ type := "validation_error", code := "VALIDATION_FAILED",
                    message := "Missing required fields: " ++
                               String.intercalate ", " missing,
                    field := none }, 400),
          bucket.filter (fun ts => now - window < ts) ++ [now], m)) ∧
    ((bucket.filter (fun ts => now - window < ts)).length < max_requests →
     req.is_json = true → size_rejected req max_size = false →
     req.body = BodyParse.parsed data →
     missing_fields data required_fields = .ok [] →
     ∀ v, validate_input_security data 10 0 = .error v →
       chat_pipeline max_requests window required_fields max_size bucket now
           req m handler =
         (.error ({ type := "security_error", code := "SECURITY_ERROR",
                    message := "Security violation detected" }, 403),
          bucket.filter (fun ts => now - window < ts) ++ [now], m)) ∧
    ((bucket.filter (fun ts => now - window < ts)).length < max_requests →
     req.is_json = true → size_rejected req max_size = false →
     req.body = BodyParse.parsed data →
     missing_fields data required_fields = .ok [] →
     validate_input_security data 10 0 = .ok () →
     0 ≤ m.active_requests → m.active_requests < m.max_concurrent_requests →
       chat_pipeline max_requests window required_fields max_size bucket now
           req m handler =
         (handle_errors handler,
          bucket.filter (fun ts => now - window < ts) ++ [now], m)) := by
  refine ⟨?_, ?_, ?_, ?_⟩
  · intro hrl
    unfold chat_pipeline
    rw [rate_limit_rejects max_requests window bucket now hrl]
  · intro hrl hj hsz hb missing hmiss hne hsec
    have hempty : missing.isEmpty = false := by
      cases missing with
      | nil => exact absurd rfl hne
      | cons a rest => rfl
    have hval : validate_request_data required_fields max_size req
        (with_resource_management handler) m =
        (.error (.validation ("Missing required fields: " ++
                              String.intercalate ", " missing) none), m) := by
      rw [validate_request_data_parsed required_fields max_size req
            (with_resource_management handler) m data hj hsz hb, hmiss]
      show (if missing.isEmpty = false then _ else _) = _
      rw [if_pos hempty]
    unfold chat_pipeline
    rw [rate_limit_allows max_requests window bucket now hrl]
    show (handle_errors (validate_request_data required_fields max_size req
            (with_resource_management handler) m).1,
          bucket.filter (fun ts => now - window < ts) ++ [now],
          (validate_request_data required_fields max_size req
            (with_resource_management handler) m).2) = _
    rw [hval]
    rfl
  · intro hrl hj hsz hb hmiss v hv
    have hval : validate_request_data required_fields max_size req
        (with_resource_management handler) m =
        (.error (.security v.message "SECURITY_ERROR"), m) := by
      rw [validate_request_data_parsed required_fields max_size req
            (with_resource_management handler) m data hj hsz hb, hmiss]
      show (if ([] : List String).isEmpty = false then _ else _) = _
      rw [if_neg (by simp)]
      show (match validate_input_security data 10 0 with
            | Except.error v =>
                (Except.error (Failure.security v.message "SECURITY_ERROR"), m)
            | Except.ok _ => with_resource_management handler m) = _
      rw [hv]
    unfold chat_pipeline
    rw [rate_limit_allows max_requests window bucket now hrl]
    show (handle_errors (validate_request_data required_fields max_size req
            (with_resource_management handler) m).1,
          bucket.filter (fun ts => now - window < ts) ++ [now],
          (validate_request_data required_fields max_size req
            (with_resource_management handler) m).2) = _
    rw [hval]
    rfl
  · intro hrl hj hsz hb hmiss hok h0 hcap
    have hval : validate_request_data required_fields max_size req
        (with_resource_management handler) m = (handler, m) := by
      rw [validate_request_data_parsed required_fields max_size req
            (with_resource_management handler) m data hj hsz hb, hmiss]
      show (if ([] : List String).isEmpty = false then _ else _) = _
      rw [if_neg (by simp)]
      show (match validate_input_security data 10 0 with
            | Except.error v =>
                (Except.error (Failure.security v.message "SECURITY_ERROR"), m)
            | Except.ok _ => with_resource_management handler m) = _
      rw [hok]
      exact resource_scope_restores m handler h0 hcap
    unfold chat_pipeline
    rw [rate_limit_allows max_requests window bucket now hrl]
    show (handle_errors (validate_request_data required_fields max_size req
            (with_resource_management handler) m).1,
          bucket.filter (fun ts => now - window < ts) ++ [now],
          (validate_request_data required_fields max_size req
            (with_resource_management handler) m).2) = _
    rw [hval]

/-- Witness for C9 at concrete requests: a rate-limited call is rejected
with 429 despite a valid body; a payload missing `messages` but carrying
a script tag gets the validation failure; a complete payload with a
script tag gets the 403; and a fully valid request reaches the handler
with the ledger restored. -/
theorem chat_pipeline_stage_order_witness :
    (chat_pipeline 1 10 ["messages"] 1048576 [(5 : Int)] 6
        { is_json := true, content_length := some 100,
          body := BodyParse.parsed (JsonValue.obj [("messages", JsonValue.str "hi")]) }
        ResourceManager.init (Except.ok ())).1 =
      .error (rate_limit_exceeded_body 1 10, 429) ∧
    chat_pipeline 30 60 ["messages"] 1048576 [] 0
        { is_json := true, content_length := some 100,
          body := BodyParse.parsed (JsonValue.obj [("content", JsonValue.str "<script>")]) }
        ResourceManager.init (Except.ok ()) =
      (.error ({ type := "validation_error", code := "VALIDATION_FAILED",
                 message := "Missing required fields: " ++
                            String.intercalate ", " ["messages"],
                 field := none }, 400),
       ([] : List Int).filter (fun ts => (0 : Int) - 60 < ts) ++ [0],
       ResourceManager.init) ∧
    chat_pipeline 30 60 ["messages"] 1048576 [] 0
        { is_json := true, content_length := some 100,
          body := BodyParse.parsed (JsonValue.obj [("messages", JsonValue.str "<script>x")]) }
        ResourceManager.init (Except.ok ()) =
      (.error ({ type := "security_error", code := "SECURITY_ERROR",
                 message := "Security violation detected" }, 403),
       ([] : List Int).filter (fun ts => (0 : Int) - 60 < ts) ++ [0],
       ResourceManager.init) ∧
    chat_pipeline 30 60 ["messages"] 1048576 [] 0
        { is_json := true, content_length := some 100,
          body := BodyParse.parsed (JsonValue.obj [("messages", JsonValue.str "hello")]) }
        ResourceManager.init (Except.ok ()) =
      (handle_errors (Except.ok ()),
       ([] : List Int).filter (fun ts => (0 : Int) - 60 < ts) ++ [0],
       ResourceManager.init) :=
  ⟨(chat_pipeline_stage_order 1 10 ["messages"] 1048576 [(5 : Int)] 6
      { is_json := true, content_length := some 100,
        body := BodyParse.parsed (JsonValue.obj [("messages", JsonValue.str "hi")]) }
      ResourceManager.init (Except.ok ())
      (JsonValue.obj [("messages", JsonValue.str "hi")])).1 (by decide),
   (chat_pipeline_stage_order 30 60 ["messages"] 1048576 [] 0
      { is_json := true, content_length := some 100,
        body := BodyParse.parsed (JsonValue.obj [("content", JsonValue.str "<script>")]) }
      ResourceManager.init (Except.ok ())
      (JsonValue.obj [("content", JsonValue.str "<script>")])).2.1
      (by decide) rfl rfl rfl ["messages"] rfl (by decide)
      ⟨SecurityViolation.dangerousPattern "<script", rfl⟩,
   (chat_pipeline_stage_order 30 60 ["messages"] 1048576 [] 0
      { is_json := true, content_length := some 100,
        body := BodyParse.parsed (JsonValue.obj [("messages", JsonValue.str "<script>x")]) }
      ResourceManager.init (Except.ok ())
      (JsonValue.obj [("messages", JsonValue.str "<script>x")])).2.2.1
      (by decide) rfl rfl rfl rfl
      (SecurityViolation.dangerousPattern "<script") rfl,
   (chat_pipeline_stage_order 30 60 ["messages"] 1048576 [] 0
      { is_json := true, content_length := some 100,
        body := BodyParse.parsed (JsonValue.obj [("messages", JsonValue.str "hello")]) }
      ResourceManager.init (Except.ok ())
      (JsonValue.obj [("messages", JsonValue.str "hello")])).2.2.2
      (by decide) rfl rfl rfl rfl rfl (by decide) (by decide)⟩
